import Mathlib

/-!
Verification of the frame-decoding engine of Serial Studio
(app/src/JSON/FrameBuilder.cpp).

The embedding models:
- the Frame / Group / Dataset data model (the model classes themselves are
  not part of the sources at hand, so their shape and their load-time
  validation are modelled from the design document);
- the mutation pass of JSON::FrameBuilder::readData (ProjectFile mode);
- the QuickPlot frame synthesizer branch of readData;
- the DeviceSendsJSON branch of readData;
- JSON::FrameBuilder::loadJsonMap and setOperationMode, with Qt state
  (QSettings, IO::Manager delimiters, the held QFile) made explicit and
  signal emissions modelled as an explicit event list.

Raw byte arrays are modelled as Lean strings whose characters stand for
bytes; QString::fromUtf8 is the identity under this convention.
-/

namespace SerialStudioSpec

/-- Operation modes of the frame builder (SerialStudio::OperationMode). -/
inductive OperationMode where
  | ProjectFile
  | DeviceSendsJSON
  | QuickPlot
deriving Repr, DecidableEq

/-- Text-representation decoding methods (SerialStudio::DecoderMethod). -/
inductive DecoderMethod where
  | PlainText
  | Hexadecimal
  | Base64
deriving Repr, DecidableEq

/-- One dataset of a frame (JSON::Dataset): a named, indexed scalar value. -/
structure Dataset where
  groupId : Int
  index : Int
  title : String
  value : String
  widget : String
  graph : Bool
  displayInOverview : Bool
deriving Repr, DecidableEq

/-- Modelled from the spec: a default-constructed JSON::Dataset (the class
body is outside the sources at hand). The spec gives index 0 as
"unassigned", values as text, graph and overview display off by default. -/
def emptyDataset : Dataset :=
  { groupId := 0, index := 0, title := "", value := "", widget := "",
    graph := false, displayInOverview := false }

/-- One group of a frame (JSON::Group): a named, widget-tagged ordered
sequence of datasets. -/
structure Group where
  groupId : Int
  title : String
  widget : String
  datasets : List Dataset
deriving Repr, DecidableEq

/-- Modelled from the spec: a default-constructed JSON::Group. -/
def emptyGroup : Group :=
  { groupId := 0, title := "", widget := "", datasets := [] }

/-- One frame (JSON::Frame): a title, ordered groups, and the transport
delimiter byte sequences. -/
structure Frame where
  title : String
  frameStart : String
  frameEnd : String
  groups : List Group
deriving Repr, DecidableEq

/-- Modelled from the spec: the state JSON::Frame::clear leaves behind
("clears its held Frame (sets it to empty)"). -/
def Frame.empty : Frame :=
  { title := "", frameStart := "", frameEnd := "", groups := [] }

/-! ## Mutation pass (readData, ProjectFile mode, lines 342-353)

For each group g and dataset d of the held frame the source runs:
  const auto index = dataset.index();
  if (index <= fields.count() && index > 0)
    dataset.m_value = fields.at(index - 1);
-/

/-- The per-dataset step of the mutation pass. -/
def applyField (fields : List String) (d : Dataset) : Dataset :=
  if d.index ≤ (fields.length : Int) ∧ 0 < d.index then
    { d with value := fields.getD (d.index - 1).toNat "" }
  else
    d

/-- The inner loop of the mutation pass over one group. -/
def applyGroup (fields : List String) (g : Group) : Group :=
  { g with datasets := g.datasets.map (applyField fields) }

/-- The full mutation pass over the held frame. -/
def applyFields (fields : List String) (f : Frame) : Frame :=
  { f with groups := f.groups.map (applyGroup fields) }

/-! ### Helper lemmas on the mutation pass -/

theorem getD_map_of_lt {α β : Type} (g : α → β) (l : List α) (i : Nat)
    (h : i < l.length) (d : α) (d2 : β) :
    (l.map g).getD i d2 = g (l.getD i d) := by
  rw [List.getD_eq_getElem _ _ (by simpa using h), List.getD_eq_getElem _ _ h,
    List.getElem_map]

theorem applyFields_groups_length (fields : List String) (f : Frame) :
    (applyFields fields f).groups.length = f.groups.length := by
  simp [applyFields]

theorem applyFields_group_getD (fields : List String) (f : Frame) (gi : Nat)
    (hg : gi < f.groups.length) :
    (applyFields fields f).groups.getD gi emptyGroup =
      applyGroup fields (f.groups.getD gi emptyGroup) := by
  simp only [applyFields]
  exact getD_map_of_lt (applyGroup fields) f.groups gi hg emptyGroup emptyGroup

theorem applyGroup_datasets_length (fields : List String) (g : Group) :
    (applyGroup fields g).datasets.length = g.datasets.length := by
  simp [applyGroup]

theorem applyGroup_dataset_getD (fields : List String) (g : Group) (di : Nat)
    (hd : di < g.datasets.length) :
    (applyGroup fields g).datasets.getD di emptyDataset =
      applyField fields (g.datasets.getD di emptyDataset) := by
  simp only [applyGroup]
  exact getD_map_of_lt (applyField fields) g.datasets di hd emptyDataset emptyDataset

theorem applyFields_dataset_getD (fields : List String) (f : Frame)
    (gi di : Nat) (hg : gi < f.groups.length)
    (hd : di < (f.groups.getD gi emptyGroup).datasets.length) :
    ((applyFields fields f).groups.getD gi emptyGroup).datasets.getD di emptyDataset =
      applyField fields ((f.groups.getD gi emptyGroup).datasets.getD di emptyDataset) := by
  rw [applyFields_group_getD fields f gi hg]
  exact applyGroup_dataset_getD fields (f.groups.getD gi emptyGroup) di hd

/-- C1: in ProjectFile mode the mutation pass, visiting datasets in group
then dataset order, sets the value of every dataset whose index lies in
1..fieldCount to fields[index - 1] and leaves every other dataset
untouched. -/
theorem mutation_pass_sets_indexed_values (fields : List String) (f : Frame)
    (gi di : Nat) (hg : gi < f.groups.length)
    (hd : di < (f.groups.getD gi emptyGroup).datasets.length) :
    ((1 ≤ ((f.groups.getD gi emptyGroup).datasets.getD di emptyDataset).index ∧
        ((f.groups.getD gi emptyGroup).datasets.getD di emptyDataset).index ≤
          (fields.length : Int)) →
      ((applyFields fields f).groups.getD gi emptyGroup).datasets.getD di emptyDataset =
        { (f.groups.getD gi emptyGroup).datasets.getD di emptyDataset with
            value := fields.getD
              ((((f.groups.getD gi emptyGroup).datasets.getD di emptyDataset).index - 1).toNat)
              "" }) ∧
    ((¬ (1 ≤ ((f.groups.getD gi emptyGroup).datasets.getD di emptyDataset).index ∧
          ((f.groups.getD gi emptyGroup).datasets.getD di emptyDataset).index ≤
            (fields.length : Int))) →
      ((applyFields fields f).groups.getD gi emptyGroup).datasets.getD di emptyDataset =
        (f.groups.getD gi emptyGroup).datasets.getD di emptyDataset) := by
  rw [applyFields_dataset_getD fields f gi di hg hd]
  constructor
  · intro hin
    rw [applyField, if_pos ⟨hin.2, by omega⟩]
  · intro hout
    rw [applyField, if_neg]
    intro hcontra
    exact hout ⟨by omega, hcontra.1⟩

/-- Concrete frame used by the witnesses: one group with two datasets,
one carrying index 2 and a stale value, the other carrying index 5. -/
def witnessFrame : Frame :=
  { title := "w", frameStart := "/*", frameEnd := "*/",
    groups :=
      [{ groupId := 0, title := "g", widget := "bar",
         datasets :=
           [{ emptyDataset with index := 2, title := "a", value := "old2" },
            { emptyDataset with index := 5, title := "b", value := "old5" }] }] }

theorem mutation_pass_sets_indexed_values_witness :
    ((applyFields ["10", "20", "30"] witnessFrame).groups.getD 0 emptyGroup).datasets.getD 0
        emptyDataset =
      { (witnessFrame.groups.getD 0 emptyGroup).datasets.getD 0 emptyDataset with
          value := "20" } ∧
    ((applyFields ["10", "20", "30"] witnessFrame).groups.getD 0 emptyGroup).datasets.getD 1
        emptyDataset =
      (witnessFrame.groups.getD 0 emptyGroup).datasets.getD 1 emptyDataset := by
  constructor
  · have h := (mutation_pass_sets_indexed_values ["10", "20", "30"] witnessFrame 0 0
      (by decide) (by decide)).1 (by decide)
    simpa using h
  · exact (mutation_pass_sets_indexed_values ["10", "20", "30"] witnessFrame 0 1
      (by decide) (by decide)).2 (by decide)

/-- C8: the mutation pass never adds, removes or reorders groups or
datasets, and changes no dataset field other than value. -/
theorem mutation_pass_preserves_structure (fields : List String) (f : Frame) :
    (applyFields fields f).groups.length = f.groups.length ∧
    (applyFields fields f).title = f.title ∧
    (applyFields fields f).frameStart = f.frameStart ∧
    (applyFields fields f).frameEnd = f.frameEnd ∧
    ∀ gi : Nat, gi < f.groups.length →
      ((applyFields fields f).groups.getD gi emptyGroup).groupId =
          (f.groups.getD gi emptyGroup).groupId ∧
      ((applyFields fields f).groups.getD gi emptyGroup).title =
          (f.groups.getD gi emptyGroup).title ∧
      ((applyFields fields f).groups.getD gi emptyGroup).widget =
          (f.groups.getD gi emptyGroup).widget ∧
      ((applyFields fields f).groups.getD gi emptyGroup).datasets.length =
          (f.groups.getD gi emptyGroup).datasets.length ∧
      ∀ di : Nat, di < (f.groups.getD gi emptyGroup).datasets.length →
        let d := (f.groups.getD gi emptyGroup).datasets.getD di emptyDataset
        let d2 := ((applyFields fields f).groups.getD gi emptyGroup).datasets.getD di
          emptyDataset
        d2.groupId = d.groupId ∧ d2.index = d.index ∧ d2.title = d.title ∧
        d2.widget = d.widget ∧ d2.graph = d.graph ∧
        d2.displayInOverview = d.displayInOverview := by
  refine ⟨applyFields_groups_length fields f, rfl, rfl, rfl, ?_⟩
  intro gi hg
  rw [applyFields_group_getD fields f gi hg]
  refine ⟨rfl, rfl, rfl, applyGroup_datasets_length fields _, ?_⟩
  intro di hd
  rw [applyGroup_dataset_getD fields _ di hd]
  unfold applyField
  split <;> exact ⟨rfl, rfl, rfl, rfl, rfl, rfl⟩

theorem mutation_pass_preserves_structure_witness :
    (applyFields ["10", "20", "30"] witnessFrame).groups.length =
        witnessFrame.groups.length ∧
    ((applyFields ["10", "20", "30"] witnessFrame).groups.getD 0 emptyGroup).widget =
        (witnessFrame.groups.getD 0 emptyGroup).widget ∧
    (((applyFields ["10", "20", "30"] witnessFrame).groups.getD 0 emptyGroup).datasets.getD 0
        emptyDataset).index =
      ((witnessFrame.groups.getD 0 emptyGroup).datasets.getD 0 emptyDataset).index := by
  have h := mutation_pass_preserves_structure ["10", "20", "30"] witnessFrame
  have hg := h.2.2.2.2 0 (by decide)
  exact ⟨h.1, hg.2.2.1, (hg.2.2.2.2 0 (by decide)).2.1⟩

/-! ## QuickPlot synthesizer (readData, QuickPlot mode, lines 360-422) -/

/-- One dataset built inside the QuickPlot loop: the source sets groupId 0,
index = channel, title "Channel %1", value = the raw field, graph false;
widget and overview display keep their constructed defaults. -/
def quickPlotDataset (channel : Int) (field : String) : Dataset :=
  { emptyDataset with
      groupId := 0, index := channel, title := "Channel " ++ toString channel,
      value := field, graph := false }

/-- The QuickPlot dataset-building loop, with its running channel counter. -/
def quickPlotDatasets : Int → List String → List Dataset
  | _, [] => []
  | channel, field :: rest =>
      quickPlotDataset channel field :: quickPlotDatasets (channel + 1) rest

/-- The QuickPlot frame built from the decoded field list: a datagrid
group, a multiplot group only when more than one dataset exists, and an
individual-plots group whose datasets are re-tagged to group 2, graphed,
and overview-displayed exactly when there is a single dataset. -/
def buildQuickPlotFrame (fields : List String) : Frame :=
  let datasets := quickPlotDatasets 1 fields
  let datagrid : Group :=
    { groupId := 0, title := "Quick Plot Data", widget := "datagrid",
      datasets := datasets }
  let baseGroups :=
    if 1 < datasets.length then
      [datagrid,
       { groupId := 1, title := "Multiple Plots", widget := "multiplot",
         datasets := datasets.map (fun d => { d with groupId := 1 }) }]
    else
      [datagrid]
  let plots : Group :=
    { groupId := 2, title := "Individual Plots", widget := "",
      datasets := datasets.map (fun d =>
        { d with groupId := 2, graph := true,
                 displayInOverview := datasets.length = 1 }) }
  { title := "Quick Plot", frameStart := "", frameEnd := "",
    groups := baseGroups ++ [plots] }

theorem quickPlotDatasets_length (channel : Int) (fields : List String) :
    (quickPlotDatasets channel fields).length = fields.length := by
  induction fields generalizing channel with
  | nil => rfl
  | cons a t ih => simp [quickPlotDatasets, ih]

theorem quickPlotDatasets_getD (fields : List String) (channel : Int) (i : Nat)
    (h : i < fields.length) :
    (quickPlotDatasets channel fields).getD i emptyDataset =
      quickPlotDataset (channel + i) (fields.getD i "") := by
  induction fields generalizing channel i with
  | nil => simp at h
  | cons a t ih =>
    cases i with
    | zero => simp [quickPlotDatasets]
    | succ j =>
      have hj : j < t.length := by simpa using h
      have := ih (channel + 1) j hj
      simp only [quickPlotDatasets, List.getD_cons_succ, this]
      congr 1
      omega

/-- C5: with exactly one decoded field, QuickPlot synthesizes exactly two
groups, datagrid then individual plots, and the single individual-plots
dataset has displayInOverview true. -/
theorem quickPlot_single_field (fields : List String)
    (h : fields.length = 1) :
    (buildQuickPlotFrame fields).groups.length = 2 ∧
    ((buildQuickPlotFrame fields).groups.getD 0 emptyGroup).widget = "datagrid" ∧
    ((buildQuickPlotFrame fields).groups.getD 1 emptyGroup).title = "Individual Plots" ∧
    ((buildQuickPlotFrame fields).groups.getD 1 emptyGroup).datasets.length = 1 ∧
    (((buildQuickPlotFrame fields).groups.getD 1 emptyGroup).datasets.getD 0
        emptyDataset).displayInOverview = true := by
  match fields, h with
  | [a], _ =>
    refine ⟨rfl, rfl, rfl, rfl, ?_⟩
    simp [buildQuickPlotFrame, quickPlotDatasets, quickPlotDataset]

theorem quickPlot_single_field_witness :
    (buildQuickPlotFrame ["7"]).groups.length = 2 ∧
    ((buildQuickPlotFrame ["7"]).groups.getD 0 emptyGroup).widget = "datagrid" ∧
    ((buildQuickPlotFrame ["7"]).groups.getD 1 emptyGroup).title = "Individual Plots" ∧
    ((buildQuickPlotFrame ["7"]).groups.getD 1 emptyGroup).datasets.length = 1 ∧
    (((buildQuickPlotFrame ["7"]).groups.getD 1 emptyGroup).datasets.getD 0
        emptyDataset).displayInOverview = true :=
  quickPlot_single_field ["7"] rfl

/-- C6: with more than one decoded field, QuickPlot synthesizes exactly
three groups in order datagrid (id 0), multiplot (id 1), individual plots
(id 2); every group holds one dataset per field with 1-based index and
title Channel position; individual-plots datasets are re-tagged to group
2, graphed, and not overview-displayed. -/
theorem quickPlot_multi_field (fields : List String)
    (h : 1 < fields.length) :
    (buildQuickPlotFrame fields).groups.length = 3 ∧
    ((buildQuickPlotFrame fields).groups.getD 0 emptyGroup).groupId = 0 ∧
    ((buildQuickPlotFrame fields).groups.getD 0 emptyGroup).widget = "datagrid" ∧
    ((buildQuickPlotFrame fields).groups.getD 1 emptyGroup).groupId = 1 ∧
    ((buildQuickPlotFrame fields).groups.getD 1 emptyGroup).widget = "multiplot" ∧
    ((buildQuickPlotFrame fields).groups.getD 2 emptyGroup).groupId = 2 ∧
    ((buildQuickPlotFrame fields).groups.getD 2 emptyGroup).title = "Individual Plots" ∧
    (∀ k : Nat, k < 3 →
      ((buildQuickPlotFrame fields).groups.getD k emptyGroup).datasets.length =
        fields.length) ∧
    (∀ k : Nat, k < 3 → ∀ i : Nat, i < fields.length →
      (((buildQuickPlotFrame fields).groups.getD k emptyGroup).datasets.getD i
          emptyDataset).index = (i : Int) + 1 ∧
      (((buildQuickPlotFrame fields).groups.getD k emptyGroup).datasets.getD i
          emptyDataset).title = "Channel " ++ toString ((i : Int) + 1)) ∧
    (∀ i : Nat, i < fields.length →
      (((buildQuickPlotFrame fields).groups.getD 2 emptyGroup).datasets.getD i
          emptyDataset).groupId = 2 ∧
      (((buildQuickPlotFrame fields).groups.getD 2 emptyGroup).datasets.getD i
          emptyDataset).graph = true ∧
      (((buildQuickPlotFrame fields).groups.getD 2 emptyGroup).datasets.getD i
          emptyDataset).displayInOverview = false) := by
  have hlen : 1 < (quickPlotDatasets 1 fields).length := by
    rw [quickPlotDatasets_length]; exact h
  have hframe : buildQuickPlotFrame fields =
      { title := "Quick Plot", frameStart := "", frameEnd := "",
        groups :=
          [{ groupId := 0, title := "Quick Plot Data", widget := "datagrid",
             datasets := quickPlotDatasets 1 fields },
           { groupId := 1, title := "Multiple Plots", widget := "multiplot",
             datasets := (quickPlotDatasets 1 fields).map
               (fun d => { d with groupId := 1 }) },
           { groupId := 2, title := "Individual Plots", widget := "",
             datasets := (quickPlotDatasets 1 fields).map (fun d =>
               { d with groupId := 2, graph := true,
                        displayInOverview :=
                          (quickPlotDatasets 1 fields).length = 1 }) }] } := by
    rw [buildQuickPlotFrame]
    simp only [if_pos hlen]
    rfl
  rw [hframe]
  have hilen : ∀ i : Nat, i < fields.length → i < (quickPlotDatasets 1 fields).length := by
    intro i hi; rw [quickPlotDatasets_length]; exact hi
  refine ⟨rfl, rfl, rfl, rfl, rfl, rfl, rfl, ?_, ?_, ?_⟩
  · intro k hk
    interval_cases k <;>
      simp [quickPlotDatasets_length]
  · intro k hk i hi
    have hbase := quickPlotDatasets_getD fields 1 i hi
    have hidx : (1 : Int) + i = (i : Int) + 1 := by omega
    interval_cases k
    · rw [List.getD_cons_zero, hbase, hidx]
      exact ⟨rfl, rfl⟩
    · rw [List.getD_cons_succ, List.getD_cons_zero,
        getD_map_of_lt _ _ i (hilen i hi) emptyDataset emptyDataset, hbase, hidx]
      exact ⟨rfl, rfl⟩
    · rw [List.getD_cons_succ, List.getD_cons_succ, List.getD_cons_zero,
        getD_map_of_lt _ _ i (hilen i hi) emptyDataset emptyDataset, hbase, hidx]
      exact ⟨rfl, rfl⟩
  · intro i hi
    rw [List.getD_cons_succ, List.getD_cons_succ, List.getD_cons_zero,
      getD_map_of_lt _ _ i (hilen i hi) emptyDataset emptyDataset]
    refine ⟨rfl, rfl, ?_⟩
    show decide ((quickPlotDatasets 1 fields).length = 1) = false
    rw [quickPlotDatasets_length]
    simp only [decide_eq_false_iff_not]
    omega

theorem quickPlot_multi_field_witness :
    (buildQuickPlotFrame ["1", "2", "3"]).groups.length = 3 ∧
    ((buildQuickPlotFrame ["1", "2", "3"]).groups.getD 1 emptyGroup).widget =
      "multiplot" ∧
    (((buildQuickPlotFrame ["1", "2", "3"]).groups.getD 2 emptyGroup).datasets.getD 0
        emptyDataset).displayInOverview = false ∧
    (((buildQuickPlotFrame ["1", "2", "3"]).groups.getD 0 emptyGroup).datasets.getD 2
        emptyDataset).title = "Channel " ++ toString ((2 : Int) + 1) := by
  have h := quickPlot_multi_field ["1", "2", "3"] (by decide)
  exact ⟨h.1, h.2.2.2.2.1,
    (h.2.2.2.2.2.2.2.2.2 0 (by decide)).2.2,
    (h.2.2.2.2.2.2.2.2.1 0 (by decide) 2 (by decide)).2⟩

/-! ## JSON documents and the frame reader

QJsonDocument / QJsonObject values are modelled by a small JSON value
type. JSON::Frame::read and JSON::Frame::isValid live in the model
classes, outside the sources at hand, so they are modelled from the spec
as a single structural reader returning none on any shape failure.
-/

/-- A JSON value, as produced by a successful QJsonDocument parse. -/
inductive Json where
  | null : Json
  | bool (b : Bool) : Json
  | num (n : Int) : Json
  | str (s : String) : Json
  | arr (items : List Json) : Json
  | obj (fields : List (String × Json)) : Json

/-- Key lookup on a JSON object; none on other value kinds. -/
def Json.lookupKey : Json → String → Option Json
  | .obj fields, key => fields.lookup key
  | _, _ => none

/-- A required string field. -/
def Json.getStr (j : Json) (key : String) : Option String :=
  match j.lookupKey key with
  | some (.str s) => some s
  | _ => none

/-- A required integer field. -/
def Json.getInt (j : Json) (key : String) : Option Int :=
  match j.lookupKey key with
  | some (.num n) => some n
  | _ => none

/-- A required array field. -/
def Json.getArr (j : Json) (key : String) : Option (List Json) :=
  match j.lookupKey key with
  | some (.arr items) => some items
  | _ => none

/-- An optional string field with a default. -/
def Json.getStrD (j : Json) (key : String) (d : String) : String :=
  (j.getStr key).getD d

/-- An optional boolean field with a default. -/
def Json.getBoolD (j : Json) (key : String) (d : Bool) : Bool :=
  match j.lookupKey key with
  | some (.bool b) => b
  | _ => d

/-- QJsonDocument::fromJson(...).object(): a failed parse yields a null
document and a null or non-object document yields the empty object. -/
def jsonObjOf : Option Json → Json
  | some (.obj fields) => .obj fields
  | _ => .obj []

/-- Modelled from the spec: JSON::Dataset::read (not in the sources at
hand). A dataset must declare a title and an integer index; widget, value
and graph are optional with constructed defaults; groupId is the id of
the owning group. -/
def Dataset.read (gid : Int) (j : Json) : Option Dataset :=
  match j.getStr "title", j.getInt "index" with
  | some t, some i =>
      some { groupId := gid, index := i, title := t,
             value := j.getStrD "value" "", widget := j.getStrD "widget" "",
             graph := j.getBoolD "graph" false,
             displayInOverview := j.getBoolD "overviewDisplay" false }
  | _, _ => none

/-- Modelled from the spec: JSON::Group::read (not in the sources at
hand). A group must declare a widget kind and an ordered list of
datasets, every one of which must read successfully; its id is its
position among the groups. -/
def Group.read (gid : Int) (j : Json) : Option Group :=
  match j.getStr "widget", j.getArr "datasets" with
  | some w, some items =>
      match items.mapM (Dataset.read gid) with
      | some ds =>
          some { groupId := gid, title := j.getStrD "title" "", widget := w,
                 datasets := ds }
      | none => none
  | _, _ => none

/-- Reads the ordered group list, assigning positional ids. -/
def readGroups (gid : Int) : List Json → Option (List Group)
  | [] => some []
  | j :: rest =>
      match Group.read gid j, readGroups (gid + 1) rest with
      | some g, some gs => some (g :: gs)
      | _, _ => none

/-- Modelled from the spec: JSON::Frame::read combined with
JSON::Frame::isValid (neither is in the sources at hand). The root must
declare a title and a non-empty ordered list of groups; frameStart and
frameEnd are derived from root-level fields. Returns none on any shape
failure. -/
def Frame.read (j : Json) : Option Frame :=
  match j.getStr "title", j.getArr "groups" with
  | some t, some gs =>
      if gs.isEmpty then none
      else
        match readGroups 0 gs with
        | some groups =>
            some { title := t, frameStart := j.getStrD "frameStart" "/*",
                   frameEnd := j.getStrD "frameEnd" "*/", groups := groups }
        | none => none
  | _, _ => none

/-! ## Text representations (readData, lines 316-332)

QByteArray::toHex and QByteArray::toBase64, applied before the decoded
bytes are handed to the frame parser function.
-/

/-- One lowercase hexadecimal digit. -/
def hexDigit (n : Nat) : Char :=
  "0123456789abcdef".toList.getD n '0'

/-- QByteArray::toHex on the byte string. -/
def toHexString (s : String) : String :=
  String.mk ((s.toList.map fun c =>
    [hexDigit (c.toNat % 256 / 16), hexDigit (c.toNat % 16)]).flatten)

/-- The base64 alphabet of RFC 4648. -/
def base64Alphabet : List Char :=
  "ABCDEFGHIJKLMNOPQRSTUVWXYZabcdefghijklmnopqrstuvwxyz0123456789+/".toList

/-- One base64 digit. -/
def b64Digit (n : Nat) : Char :=
  base64Alphabet.getD n 'A'

/-- QByteArray::toBase64 on a byte list, with padding. -/
def toBase64Chars : List Nat → List Char
  | [] => []
  | [b1] => [b64Digit (b1 / 4), b64Digit (b1 % 4 * 16), '=', '=']
  | [b1, b2] =>
      [b64Digit (b1 / 4), b64Digit (b1 % 4 * 16 + b2 / 16),
       b64Digit (b2 % 16 * 4), '=']
  | b1 :: b2 :: b3 :: rest =>
      b64Digit (b1 / 4) :: b64Digit (b1 % 4 * 16 + b2 / 16) ::
        b64Digit (b2 % 16 * 4 + b3 / 64) :: b64Digit (b3 % 64) ::
        toBase64Chars rest

/-- QByteArray::toBase64 on the byte string. -/
def toBase64String (s : String) : String :=
  String.mk (toBase64Chars (s.toList.map fun c => c.toNat % 256))

/-- The byte-to-text conversion switch of readData (default falls back to
the plain text behaviour). -/
def decodeFrameData (m : DecoderMethod) (data : String) : String :=
  match m with
  | .PlainText => data
  | .Hexadecimal => toHexString data
  | .Base64 => toBase64String data

/-- QByteArray whitespace as treated by QByteArray::simplified. -/
def isQtSpace (c : Char) : Bool :=
  c == ' ' || c == '\t' || c == '\n' || c == '\r' || c == '\x0b' || c == '\x0c'

/-- Splits a character list at every character satisfying the predicate,
keeping empty parts. -/
def splitPred (p : Char → Bool) : List Char → List (List Char)
  | [] => [[]]
  | c :: rest =>
      let r := splitPred p rest
      if p c then [] :: r
      else
        match r with
        | h :: t => (c :: h) :: t
        | [] => [[c]]

/-- QByteArray::split(sep) and QString::split(sep) for a one-character
separator: the separated parts in order, empty parts kept. -/
def splitOnChar (sep : Char) (s : String) : List String :=
  (splitPred (fun c => c == sep) s.toList).map String.mk

/-- QByteArray::simplified: strip leading and trailing whitespace and
collapse every internal whitespace run to a single space. -/
def simplifiedStr (s : String) : String :=
  String.mk
    ((((splitPred isQtSpace s.toList).filter (fun w => !w.isEmpty)).intersperse
      [' ']).flatten)

/-! ## Builder state and operations

State of JSON::FrameBuilder together with the external state it drives:
the IO::Manager start and finish sequences, the two QSettings keys, and
the held QFile. Signal emissions are returned as an explicit event list.
-/

/-- Signals emitted by the frame builder. -/
inductive Event where
  | frameChanged (f : Frame)
  | operationModeChanged
  | jsonFileMapChanged
deriving Repr, DecidableEq

/-- The explicit state of the frame builder and its driven collaborators. -/
structure BuilderState where
  frame : Frame
  opMode : OperationMode
  frameParserFn : Option (String → List String)
  jsonMapOpen : Bool
  jsonMapFileName : String
  settingsJsonMapLocation : String
  settingsOperationMode : OperationMode
  ioStartSequence : String
  ioFinishSequence : String

/-- External collaborators read during a decode: the Qt JSON parser, the
CSV playback state and the project decoder method. -/
structure Env where
  parseJson : String → Option Json
  csvPlaying : Bool
  decoderMethod : DecoderMethod

/-- JSON::FrameBuilder::setOperationMode: store the mode, configure the
transport delimiters per mode, persist the selection and notify. -/
def setOperationMode (mode : OperationMode) (s : BuilderState) :
    BuilderState × List Event :=
  let s1 := { s with opMode := mode }
  let s2 :=
    match mode with
    | .DeviceSendsJSON =>
        { s1 with ioStartSequence := "", ioFinishSequence := "" }
    | .ProjectFile =>
        { s1 with ioFinishSequence := s.frame.frameEnd,
                  ioStartSequence := s.frame.frameStart }
    | .QuickPlot =>
        { s1 with ioStartSequence := "", ioFinishSequence := "" }
  ({ s2 with settingsOperationMode := mode }, [.operationModeChanged])

/-- The outcome of opening and parsing the schema file at a given path:
the open call fails, the bytes fail to parse, or a document is produced. -/
inductive FileLoadResult where
  | openFailure : FileLoadResult
  | parseFailure : FileLoadResult
  | parsed (doc : Json) : FileLoadResult

/-- Whether the outcome is the open failure. -/
def FileLoadResult.isOpenFailure : FileLoadResult → Bool
  | .openFailure => true
  | _ => false

/-- JSON::FrameBuilder::loadJsonMap(path): close any previously held file
(clearing the frame), then open, parse and validate, installing the new
frame and delimiters on success and resetting the frame and the persisted
path on failure. -/
def loadJsonMap (input : FileLoadResult) (path : String) (s : BuilderState) :
    BuilderState × List Event :=
  if path = "" then (s, [])
  else
    let closeEvents : List Event :=
      if s.jsonMapOpen then [.jsonFileMapChanged] else []
    let s1 :=
      if s.jsonMapOpen then
        { s with frame := Frame.empty, jsonMapOpen := false,
                 jsonMapFileName := path }
      else
        { s with jsonMapFileName := path }
    match input with
    | .openFailure =>
        ({ s1 with settingsJsonMapLocation := "" },
         closeEvents ++ [.jsonFileMapChanged])
    | .parseFailure =>
        ({ s1 with frame := Frame.empty, jsonMapOpen := false,
                   settingsJsonMapLocation := "" },
         closeEvents ++ [.jsonFileMapChanged])
    | .parsed doc =>
        match Frame.read (jsonObjOf (some doc)) with
        | some fr =>
            let s2 := { s1 with jsonMapOpen := true,
                                settingsJsonMapLocation := path, frame := fr }
            let s3 :=
              if s2.opMode = .ProjectFile then
                { s2 with ioFinishSequence := fr.frameEnd,
                          ioStartSequence := fr.frameStart }
              else s2
            (s3, closeEvents ++ [.jsonFileMapChanged])
        | none =>
            ({ s1 with frame := Frame.empty, jsonMapOpen := false,
                       settingsJsonMapLocation := "" },
             closeEvents ++ [.jsonFileMapChanged])

/-- JSON::FrameBuilder::readData(data): the per-message decode dispatch
over the three operation modes. -/
def readData (env : Env) (s : BuilderState) (data : String) :
    BuilderState × List Event :=
  if data = "" then (s, [])
  else
    match s.opMode, s.frameParserFn with
    | .DeviceSendsJSON, _ =>
        match Frame.read (jsonObjOf (env.parseJson data)) with
        | some fr => ({ s with frame := fr }, [.frameChanged fr])
        | none => (s, [])
    | .ProjectFile, some parseFields =>
        let fields :=
          if env.csvPlaying then splitOnChar ',' (simplifiedStr data)
          else parseFields (decodeFrameData env.decoderMethod data)
        let fr := applyFields fields s.frame
        ({ s with frame := fr }, [.frameChanged fr])
    | .ProjectFile, none => (s, [])
    | .QuickPlot, _ =>
        (s, [.frameChanged (buildQuickPlotFrame (splitOnChar ',' data))])

/-! ## Concrete fixtures for witnesses and counterexamples -/

/-- A well-formed schema document: a title and one group holding one
dataset with title and index. -/
def sampleDoc : Json :=
  .obj [("title", .str "T"),
        ("groups", .arr
          [.obj [("title", .str "g"), ("widget", .str "bar"),
                 ("datasets", .arr
                   [.obj [("title", .str "a"), ("index", .num 1)]])]])]

/-- The frame sampleDoc reads to. -/
def sampleFrame : Frame :=
  { title := "T", frameStart := "/*", frameEnd := "*/",
    groups := [{ groupId := 0, title := "g", widget := "bar",
                 datasets := [{ groupId := 0, index := 1, title := "a",
                                value := "", widget := "", graph := false,
                                displayInOverview := false }] }] }

/-- A parsing capability that returns no fields. -/
def anyFieldsFn : String → List String := fun _ => []

/-- A freshly constructed builder: empty frame, no held file, no parsing
capability, DeviceSendsJSON mode. -/
def initBuilderState : BuilderState :=
  { frame := Frame.empty, opMode := .DeviceSendsJSON, frameParserFn := none,
    jsonMapOpen := false, jsonMapFileName := "",
    settingsJsonMapLocation := "", settingsOperationMode := .DeviceSendsJSON,
    ioStartSequence := "", ioFinishSequence := "" }

/-- An environment whose device traffic always parses to sampleDoc. -/
def devEnv : Env :=
  { parseJson := fun _ => some sampleDoc, csvPlaying := false,
    decoderMethod := .PlainText }

/-! ## Claim theorems on the decode dispatch -/

/-- C10: for every mode, decoding an empty byte chunk is a complete
no-op: no event is published and the builder state is unchanged. -/
theorem readData_empty_is_noop (env : Env) (s : BuilderState) :
    readData env s "" = (s, []) := by
  rw [readData, if_pos rfl]

/-- C3: in DeviceSendsJSON mode a message that fails to parse, or whose
document fails the structural frame check, publishes nothing; a message
whose document reads as a valid frame publishes exactly that structure. -/
theorem deviceSendsJSON_publishes_iff_valid (env : Env) (s : BuilderState)
    (data : String) (hmode : s.opMode = .DeviceSendsJSON) (hne : data ≠ "") :
    (env.parseJson data = none → readData env s data = (s, [])) ∧
    (Frame.read (jsonObjOf (env.parseJson data)) = none →
      readData env s data = (s, [])) ∧
    (∀ fr : Frame, Frame.read (jsonObjOf (env.parseJson data)) = some fr →
      readData env s data = ({ s with frame := fr }, [Event.frameChanged fr])) := by
  have hread : readData env s data =
      match Frame.read (jsonObjOf (env.parseJson data)) with
      | some fr => ({ s with frame := fr }, [Event.frameChanged fr])
      | none => (s, []) := by
    rw [readData, if_neg hne, hmode]
  refine ⟨?_, ?_, ?_⟩
  · intro h
    rw [hread, h]
    rfl
  · intro h
    rw [hread, h]
  · intro fr h
    rw [hread, h]

theorem deviceSendsJSON_publishes_iff_valid_witness :
    readData devEnv initBuilderState "x" =
      ({ initBuilderState with frame := sampleFrame },
       [Event.frameChanged sampleFrame]) :=
  (deviceSendsJSON_publishes_iff_valid devEnv initBuilderState "x" rfl
    (by decide)).2.2 sampleFrame rfl

/-- C4 amended: in ProjectFile mode a message is dropped without error
when no parsing capability is registered; the absence of a loaded schema
alone does not suppress the frame-ready event. -/
theorem projectFile_drop_without_capability (env : Env) (s : BuilderState)
    (data : String) (hmode : s.opMode = .ProjectFile)
    (hp : s.frameParserFn = none) :
    readData env s data = (s, []) := by
  by_cases hd : data = ""
  · rw [readData, if_pos hd]
  · rw [readData, if_neg hd, hmode, hp]

/-- A builder in ProjectFile mode with no parsing capability. -/
def noParserState : BuilderState :=
  { initBuilderState with opMode := .ProjectFile }

theorem projectFile_drop_without_capability_witness :
    readData devEnv noParserState "1,2" = (noParserState, []) :=
  projectFile_drop_without_capability devEnv noParserState "1,2" rfl rfl

/-- A builder in ProjectFile mode with a parsing capability registered
but no schema loaded (empty frame, no held file). -/
def pfEmptySchemaState : BuilderState :=
  { initBuilderState with
    opMode := .ProjectFile,
    frameParserFn := some anyFieldsFn }

/-- C4 counterexample: with no schema loaded but a parser registered,
readData in ProjectFile mode still emits a frame-ready event, carrying
the empty frame, instead of dropping the message. -/
theorem projectFile_no_schema_still_publishes :
    pfEmptySchemaState.frame = Frame.empty ∧
    pfEmptySchemaState.jsonMapOpen = false ∧
    (readData devEnv pfEmptySchemaState "1,2").2 =
      [Event.frameChanged Frame.empty] ∧
    (readData devEnv pfEmptySchemaState "1,2").2 ≠ [] :=
  ⟨rfl, rfl, rfl, by decide⟩

/-! ## Claim theorems on the mode controller -/

/-- C7: setOperationMode stores the mode, sets the transport delimiters
per mode (the schema delimiters for ProjectFile, empty for the other two
modes), persists the selection and emits the mode-changed notification. -/
theorem setOperationMode_spec (mode : OperationMode) (s : BuilderState) :
    (setOperationMode mode s).1.opMode = mode ∧
    (setOperationMode mode s).1.settingsOperationMode = mode ∧
    (setOperationMode mode s).2 = [Event.operationModeChanged] ∧
    (setOperationMode mode s).1.ioStartSequence =
      (match mode with
       | .ProjectFile => s.frame.frameStart
       | _ => "") ∧
    (setOperationMode mode s).1.ioFinishSequence =
      (match mode with
       | .ProjectFile => s.frame.frameEnd
       | _ => "") := by
  cases mode <;> exact ⟨rfl, rfl, rfl, rfl, rfl⟩

/-! ## Claim theorems on the CSV playback path -/

/-- C9 amended: in ProjectFile mode with a parser registered, while the
playback source is active the fields are the comma-separated parts of
the whitespace-simplified input text (QByteArray::simplified is applied
first); representation decoding and the parsing capability are not
applied (the result does not depend on either). -/
theorem projectFile_csv_splits_simplified_text (env : Env) (s : BuilderState)
    (parseFields : String → List String) (data : String)
    (hmode : s.opMode = .ProjectFile)
    (hp : s.frameParserFn = some parseFields)
    (hcsv : env.csvPlaying = true) (hne : data ≠ "") :
    readData env s data =
      ({ s with frame := applyFields (splitOnChar ',' (simplifiedStr data)) s.frame },
       [Event.frameChanged
          (applyFields (splitOnChar ',' (simplifiedStr data)) s.frame)]) := by
  rw [readData, if_neg hne, hmode, hp]
  simp only [hcsv, if_true]

/-- An environment with the playback source active. -/
def csvEnv : Env :=
  { parseJson := fun _ => none, csvPlaying := true,
    decoderMethod := .Hexadecimal }

/-- A schema frame with one dataset at index 2 holding a stale value. -/
def csvSchemaFrame : Frame :=
  { title := "csv", frameStart := "/*", frameEnd := "*/",
    groups := [{ groupId := 0, title := "g", widget := "bar",
                 datasets := [{ emptyDataset with
                                index := 2, title := "x",
                                value := "old" }] }] }

/-- A builder in ProjectFile mode with a schema and a parser, used while
playback is active. -/
def csvState : BuilderState :=
  { initBuilderState with
    opMode := .ProjectFile,
    frameParserFn := some anyFieldsFn, frame := csvSchemaFrame }

theorem projectFile_csv_splits_simplified_text_witness :
    readData csvEnv csvState "1,2" =
      ({ csvState with
           frame := applyFields (splitOnChar ',' (simplifiedStr "1,2")) csvState.frame },
       [Event.frameChanged
          (applyFields (splitOnChar ',' (simplifiedStr "1,2")) csvState.frame)]) :=
  projectFile_csv_splits_simplified_text csvEnv csvState anyFieldsFn "1,2" rfl rfl
    rfl (by decide)

/-- C9 counterexample: on playback input holding a doubled space the
decoded field is not the raw comma-separated substring of the input
text, because the code first applies QByteArray::simplified: the dataset
at index 2 receives the collapsed text. -/
theorem csv_fields_not_raw_substrings :
    (splitOnChar ',' "10,  20").getD 1 "" = "  20" ∧
    (((readData csvEnv csvState "10,  20").1.frame.groups.getD 0
        emptyGroup).datasets.getD 0 emptyDataset).value = " 20" ∧
    (" 20" : String) ≠ "  20" :=
  ⟨rfl, rfl, by decide⟩

/-! ## Claim theorems on the schema store -/

/-- Whether a load outcome is one of the three failures: the open
failure, the parse failure, or a document failing the structural check. -/
def loadFails : FileLoadResult → Bool
  | .openFailure => true
  | .parseFailure => true
  | .parsed doc => (Frame.read (jsonObjOf (some doc))).isNone

/-- C2 amended: on any failing schema load the persisted schema path
always ends empty, hence never holds the offending path; parse and
structural failures always clear the held frame; an open failure clears
it only through the close-previous step, so the frame ends empty
whenever a schema file was held open or the frame was already empty. -/
theorem schema_load_failure_resets (input : FileLoadResult) (path : String)
    (s : BuilderState) (hpath : path ≠ "") (hfail : loadFails input = true) :
    (loadJsonMap input path s).1.settingsJsonMapLocation = "" ∧
    (loadJsonMap input path s).1.settingsJsonMapLocation ≠ path ∧
    (input.isOpenFailure = false →
      (loadJsonMap input path s).1.frame = Frame.empty) ∧
    ((s.jsonMapOpen = true ∨ s.frame = Frame.empty) →
      (loadJsonMap input path s).1.frame = Frame.empty) := by
  have hne : "" ≠ path := fun h => hpath h.symm
  cases input with
  | openFailure =>
      cases ho : s.jsonMapOpen with
      | true =>
          simp only [loadJsonMap, if_neg hpath, ho, if_true]
          exact ⟨by trivial, hne, fun _ => by trivial, fun _ => by trivial⟩
      | false =>
          simp only [loadJsonMap, if_neg hpath, ho, Bool.false_eq_true,
            if_false]
          refine ⟨by trivial, hne, ?_, ?_⟩
          · intro h
            exact absurd h (by simp [FileLoadResult.isOpenFailure])
          · intro h
            cases h with
            | inl h1 => exact absurd h1 (by simp)
            | inr h2 => exact h2
  | parseFailure =>
      cases ho : s.jsonMapOpen <;>
        simp only [loadJsonMap, if_neg hpath, ho, Bool.false_eq_true,
          if_true, if_false] <;>
        exact ⟨by trivial, hne, fun _ => by trivial, fun _ => by trivial⟩
  | parsed doc =>
      have hnone : Frame.read (jsonObjOf (some doc)) = none :=
        Option.isNone_iff_eq_none.mp hfail
      cases ho : s.jsonMapOpen <;>
        simp only [loadJsonMap, if_neg hpath, ho, Bool.false_eq_true,
          if_true, if_false, hnone] <;>
        exact ⟨by trivial, hne, fun _ => by trivial, fun _ => by trivial⟩

theorem schema_load_failure_resets_witness :
    (loadJsonMap .parseFailure "/bad.json" initBuilderState).1.settingsJsonMapLocation
        = "" ∧
    (loadJsonMap .parseFailure "/bad.json" initBuilderState).1.settingsJsonMapLocation
        ≠ "/bad.json" ∧
    (loadJsonMap .parseFailure "/bad.json" initBuilderState).1.frame = Frame.empty := by
  have h := schema_load_failure_resets .parseFailure "/bad.json" initBuilderState
    (by decide) rfl
  exact ⟨h.1, h.2.1, h.2.2.1 rfl⟩

/-- The state reached from a fresh builder after one DeviceSendsJSON
decode installed a frame while no schema file is held open: readData
writes the decoded document into the held frame. -/
def staleFrameState : BuilderState := (readData devEnv initBuilderState "x").1

/-- C2 counterexample: a failing schema load (open failure) on the state
above ends with the held frame still holding the earlier decoded frame,
not cleared to empty. -/
theorem schema_open_failure_keeps_stale_frame :
    loadFails .openFailure = true ∧
    staleFrameState.jsonMapOpen = false ∧
    staleFrameState.frame = sampleFrame ∧
    (loadJsonMap .openFailure "/bad.json" staleFrameState).1.frame = sampleFrame ∧
    (loadJsonMap .openFailure "/bad.json" staleFrameState).1.frame ≠ Frame.empty :=
  ⟨rfl, rfl, rfl, rfl, by decide⟩

end SerialStudioSpec
